import Mathlib

/-!
Verification of the RAG tool-calling orchestration engine of the
`system-llm-backend` repository.

The definitions below are a shallow embedding of the Python sources:

* `app/services/rag/rag_service.py`   — `RAGService.semantic_search`, `extract_sources`
* `app/services/rag/tools.py`         — `RAGToolFactory` executors
* `app/services/llm/openai_provider.py`     — `agenerate_stream_with_tools`
* `app/services/llm/openrouter_provider.py` — `agenerate_stream_with_tools`,
  `_supports_tool_calling`
* `app/services/chat/chat_service.py` — `_build_conversation_context`,
  `send_message_stream`
* `app/api/v1/endpoints/chat.py`      — `send_message.generate_stream`

Remote calls (embedding API, model completions, the SQL vector query) are
modelled as explicit inputs: the database corpus is a list of rows carrying the
cosine distance the `<=>` operator would report for the query at hand, and the
model is an oracle from the running message history to the next response.
Python floats are modelled as rationals, exceptions as `Except`.
-/

namespace SystemLLM

/-! ## Retriever (`RAGService.semantic_search`, rag_service.py lines 72-145)

The SQL query joins `document_chunk` with `document`, keeps rows whose owning
document has status `PROCESSED`, orders by cosine distance ascending and
applies `LIMIT top_k`; the Python loop then applies the similarity-threshold
filter (only when `similarity_threshold > 0`) and builds the result dicts with
`similarity_score = 1 - distance`. -/

/-- One row visible to the SQL query: a `document_chunk` joined with its
`document`.  `distance` is the value of `dc.embedding <=> query_embedding`
(pgvector cosine distance) for the query being executed; `processed` is
whether `d.status = 'PROCESSED'`. -/
structure ChunkRow where
  chunk_id : String
  content : String
  document_id : String
  filename : String
  page : Option Int
  distance : ℚ
  chunk_index : Nat
  processed : Bool
  deriving Repr, DecidableEq

/-- One element of the list returned by `RAGService.semantic_search`. -/
structure SearchResultRow where
  chunk_id : String
  content : String
  document_id : String
  filename : String
  page : Option Int
  similarity_score : ℚ
  chunk_index : Nat
  deriving Repr, DecidableEq

/-- The ordering used by `ORDER BY dc.embedding <=> ... ASC`. -/
def distLE (a b : ChunkRow) : Prop := a.distance ≤ b.distance

instance : DecidableRel distLE := fun a b => inferInstanceAs (Decidable (a.distance ≤ b.distance))

instance : IsTotal ChunkRow distLE := ⟨fun a b => le_total a.distance b.distance⟩

instance : IsTrans ChunkRow distLE := ⟨fun _ _ _ h1 h2 => le_trans h1 h2⟩

/-- The rows produced by the SQL query of `semantic_search`: restrict to
`PROCESSED` documents, order by cosine distance ascending, `LIMIT top_k`. -/
def sqlTopK (corpus : List ChunkRow) (top_k : Nat) : List ChunkRow :=
  ((corpus.filter (·.processed)).insertionSort distLE).take top_k

/-- `RAGService.semantic_search` (rag_service.py lines 72-145).  The Python
loop over the fetched rows skips a row when
`similarity_threshold > 0 and similarity < similarity_threshold`, where
`similarity = 1 - distance`, and otherwise appends the result dict. -/
def semantic_search (corpus : List ChunkRow) (top_k : Nat)
    (similarity_threshold : ℚ) : List SearchResultRow :=
  (sqlTopK corpus top_k).filterMap fun row =>
    let similarity : ℚ := 1 - row.distance
    if similarity_threshold > 0 ∧ similarity < similarity_threshold then
      none
    else
      some { chunk_id := row.chunk_id
             content := row.content
             document_id := row.document_id
             filename := row.filename
             page := row.page
             similarity_score := similarity
             chunk_index := row.chunk_index }

/-- A source entry produced by `RAGService.extract_sources`. -/
structure SourceRow where
  document_id : String
  filename : String
  page : Option Int
  similarity_score : ℚ
  deriving Repr, DecidableEq

/-- `RAGService.extract_sources` (rag_service.py lines 173-198): deduplicate
by `(document_id, page)`, keeping first-seen order. -/
def extract_sources (chunks : List SearchResultRow) : List SourceRow :=
  (chunks.foldl
    (fun (acc : List SourceRow × List (String × Option Int)) chunk =>
      let key := (chunk.document_id, chunk.page)
      if key ∈ acc.2 then acc
      else (acc.1 ++ [{ document_id := chunk.document_id
                        filename := chunk.filename
                        page := chunk.page
                        similarity_score := chunk.similarity_score }],
            acc.2 ++ [key]))
    ([], [])).1

/-! ## ToolRegistry (`RAGToolFactory`, tools.py)

The `semantic_search` executor begins with `self.rag_service.get_config()`.
`self.rag_service` is an instance of `RAGService`; attribute lookup on it is
modelled through the explicit list of method names that `class RAGService`
defines in rag_service.py, so the call raises `AttributeError` exactly when
`"get_config"` is absent from that list. -/

/-- The methods defined on `class RAGService` (rag_service.py lines 21-289). -/
def ragServiceMethodNames : List String :=
  ["__init__", "_get_embeddings_client", "generate_embedding", "semantic_search",
   "format_rag_context", "extract_sources", "get_user_documents", "health_check"]

/-- The configuration dict the tool executor expects from `get_config()`. -/
structure RagToolConfig where
  default_top_k : Int
  max_top_k : Int
  similarity_threshold : ℚ
  deriving Repr, DecidableEq

/-- The attribute access `self.rag_service.get_config()` in
`semantic_search_impl` (tools.py line 84): an `AttributeError` unless
`RAGService` defines `get_config`.  The `ok` payload (never produced, since
the method list has no `get_config`) carries the `ChatConfig` defaults. -/
def ragServiceGetConfig : Except String RagToolConfig :=
  if ragServiceMethodNames.contains "get_config" then
    Except.ok { default_top_k := 5, max_top_k := 10, similarity_threshold := 7/10 }
  else
    Except.error "'RAGService' object has no attribute 'get_config'"

/-- The clamp applied by the tool executor (tools.py line 92):
`top_k = max(1, min(int(top_k), max_top_k))`. -/
def clampTopK (top_k max_top_k : Int) : Int :=
  max 1 (min top_k max_top_k)

/-- `round(x, 3)` applied to the similarity before showing it to the model. -/
def round3 (x : ℚ) : ℚ := (round (x * 1000) : ℤ) / 1000

/-- One entry of the `results` list the executor formats for the model. -/
structure ResultForLLM where
  filename : String
  page : Option Int
  content : String
  similarity : ℚ
  deriving Repr, DecidableEq

/-- The dict returned by the `semantic_search` executor.  `error = none` on
the success shape, `error = some e` on the failure shape
`{results: [], sources: [], count: 0, error}`. -/
structure SearchToolOutput where
  query : String
  results : List ResultForLLM
  sources : List SourceRow
  count : Nat
  error : Option String
  deriving Repr, DecidableEq

/-- Python `str.strip()`: drop leading and trailing whitespace. -/
def pyStrip (s : String) : String :=
  String.mk (((s.data.dropWhile Char.isWhitespace).reverse.dropWhile
    Char.isWhitespace).reverse)

/-- `semantic_search_impl` (tools.py lines 55-134), with the `try/except`
flattened: each statement that can raise becomes a branch returning the
failure shape built by the `except` block.  The second component records the
`rag_service.semantic_search` invocations actually performed (as
`(top_k, similarity_threshold)` pairs), so "no vector search was executed"
is expressible. -/
def semantic_search_impl (corpus : List ChunkRow)
    (cfgLookup : Except String RagToolConfig)
    (query : String) (top_k : Option Int) :
    SearchToolOutput × List (Nat × ℚ) :=
  if pyStrip query = "" then
    ({ query := query, results := [], sources := [], count := 0,
       error := some "Query must be a non-empty string" }, [])
  else
    match cfgLookup with
    | Except.error e =>
        ({ query := query, results := [], sources := [], count := 0,
           error := some e }, [])
    | Except.ok config =>
        let top_k := top_k.getD config.default_top_k
        let max_top_k := config.max_top_k
        let top_k := clampTopK top_k max_top_k
        let similarity_threshold := max (config.similarity_threshold - 5/100) 0
        let chunks := semantic_search corpus top_k.toNat similarity_threshold
        let sources := extract_sources chunks
        let results := chunks.map fun c =>
          { filename := c.filename, page := c.page, content := c.content,
            similarity := round3 c.similarity_score }
        ({ query := query, results := results, sources := sources,
           count := chunks.length, error := none },
         [(top_k.toNat, similarity_threshold)])

/-- The `semantic_search` executor as wired by `create_semantic_search_tool`:
its config lookup is the attribute access on the factory's `RAGService`. -/
def semanticSearchTool (corpus : List ChunkRow) (query : String)
    (top_k : Option Int) : SearchToolOutput × List (Nat × ℚ) :=
  semantic_search_impl corpus ragServiceGetConfig query top_k

/-- The dict returned by the `refine_prompt` executor. -/
structure RefineOutput where
  original : String
  refined : String
  success : Bool
  error : Option String
  deriving Repr, DecidableEq

/-- `refine_prompt_impl` (tools.py lines 194-325), `try/except` flattened.
`llmResult` is the outcome of the auxiliary non-streamed completion
(`llm_service.generate_async` on the refinement template): `ok refined` when
it returns, `error e` when it raises.  Every exception path falls into the
`except` block, which returns the original prompt with `success: false`. -/
def refine_prompt_impl (original_prompt : String)
    (llmResult : Except String String) : RefineOutput :=
  if pyStrip original_prompt = "" then
    { original := original_prompt, refined := original_prompt,
      success := false, error := some "Prompt must be a non-empty string" }
  else
    match llmResult with
    | Except.ok refined =>
        { original := original_prompt, refined := refined,
          success := true, error := none }
    | Except.error e =>
        { original := original_prompt, refined := original_prompt,
          success := false, error := some e }

/-! ## ModelProvider streaming with tools

`agenerate_stream_with_tools` (openai_provider.py lines 198-350) is an agentic
loop: invoke the model on the running `langchain_messages`, execute requested
tool calls, feed results back, stream a plain-text answer word-by-word.  The
model is an oracle from the running history to its next response; a tool is a
name plus an executor that returns a result dict or raises. -/

/-- A uniform `{role, content}` message as passed into the providers. -/
structure ChatMessage where
  role : String
  content : String
  deriving Repr, DecidableEq

/-- The argument dict of a tool call.  `query` models `tool_input.get("query")`
(the only key the downstream consumers read); `raw` stands for the rest of the
dict, so distinct argument dicts stay distinct. -/
structure ToolArgs where
  query : Option String
  raw : String
  deriving Repr, DecidableEq

/-- One tool call contained in a model response. -/
structure ToolCallReq where
  name : String
  args : ToolArgs
  id : String
  deriving Repr, DecidableEq

/-- A model response as returned by `ainvoke`: text content plus the
`tool_calls` list. -/
structure ModelResponse where
  content : String
  tool_calls : List ToolCallReq
  deriving Repr, DecidableEq

/-- The JSON-like dict a tool executor returns, restricted to the keys the
orchestration reads back out (`result.get("query")`, `result.get("count")`,
`result.get("sources")`); `payload` stands for the remaining data. -/
structure ToolDictOutput where
  query : Option String
  count : Option Nat
  sources : Option (List SourceRow)
  payload : String
  deriving Repr, DecidableEq

/-- A registered tool: `Tool(name=..., func=...)`.  The executor returns a
dict or raises (`Except.error`). -/
structure LCTool where
  name : String
  func : ToolArgs → Except String ToolDictOutput

/-- The langchain message history the loop grows. -/
inductive LCMessage where
  | system (content : String)
  | human (content : String)
  | ai (content : String)
  | aiResponse (r : ModelResponse)
  | tool (content : String) (tool_call_id : String) (is_error : Bool)
  deriving Repr, DecidableEq

/-- Python `str.lower()` (ASCII case folding). -/
def pyLower (s : String) : String := String.mk (s.data.map Char.toLower)

/-- `_convert_messages`: `system`/`assistant` map to their langchain classes,
everything else defaults to a human message. -/
def convertMessages (messages : List ChatMessage) : List LCMessage :=
  messages.map fun m =>
    if pyLower m.role = "system" then LCMessage.system m.content
    else if pyLower m.role = "assistant" then LCMessage.ai m.content
    else LCMessage.human m.content

/-- The event vocabulary yielded by `agenerate_stream_with_tools` (both
providers; the three `*Result`/`*Error` pairs beyond `toolResult`/`toolError`
are emitted only by the OpenRouter variant). -/
inductive ProviderEvent where
  | toolCall (tool_name : String) (tool_input : ToolArgs) (tool_id : String)
  | toolResult (tool_name tool_id : String) (result : ToolDictOutput)
  | toolError (tool_name tool_id : String) (error : String)
  | refinePromptResult (tool_name tool_id : String) (result : ToolDictOutput)
  | refinePromptError (tool_name tool_id : String) (error : String)
  | ragSearchResult (tool_name tool_id : String) (result : ToolDictOutput)
  | ragSearchError (tool_name tool_id : String) (error : String)
  | chunk (content : String)
  deriving Repr, DecidableEq

/-- Opaque stand-in for `json.dumps(tool_result)`. -/
def dumpToolOutput (r : ToolDictOutput) : String := r.payload

/-- Word-by-word streaming of a plain-text answer: `content.split()` and a
trailing space after every word but the last. -/
def wordTokens (content : String) : List String :=
  let words := (content.split (fun c => c.isWhitespace)).filter (· ≠ "")
  match words with
  | [] => []
  | w :: ws => joinWords w ws
where
  joinWords (w : String) : List String → List String
    | [] => [w]
    | x :: xs => (w ++ " ") :: joinWords x xs

/-- Handling of one tool call in the OpenAI loop (openai_provider.py lines
241-322): yield the `tool_call` event, look the name up in `tools`, run the
executor, yield the `tool_result` event (present only when the tool was
found), and produce the `ToolMessage` appended to the history. -/
def runToolCall (tools : List LCTool) (tc : ToolCallReq) :
    List ProviderEvent × LCMessage :=
  let callEvent := ProviderEvent.toolCall tc.name tc.args tc.id
  match tools.find? (fun t => t.name = tc.name) with
  | some tool =>
      match tool.func tc.args with
      | Except.ok tool_result =>
          ([callEvent, ProviderEvent.toolResult tc.name tc.id tool_result],
           LCMessage.tool (dumpToolOutput tool_result) tc.id false)
      | Except.error e =>
          ([callEvent, ProviderEvent.toolError tc.name tc.id e],
           LCMessage.tool ("Error executing tool: " ++ e) tc.id true)
  | none =>
      ([callEvent],
       LCMessage.tool ("Error: Tool '" ++ tc.name ++ "' not found") tc.id true)

/-- The events of a whole tool-call batch, in order. -/
def toolCallEvents (tools : List LCTool) (tcs : List ToolCallReq) : List ProviderEvent :=
  (tcs.map (fun tc => (runToolCall tools tc).1)).flatten

/-- The history after a tool-call batch: the model response message followed
by one tool message per call, in request order. -/
def toolCallMessages (tools : List LCTool) (tcs : List ToolCallReq) : List LCMessage :=
  tcs.map (fun tc => (runToolCall tools tc).2)

/-- The `while iteration < max_iterations` loop of
`OpenAIProvider.agenerate_stream_with_tools`, by fuel (`fuel` = iterations
still allowed).  Returns the yielded events, the number of model invocations
performed, and whether the final `iteration >= max_iterations` check is true
(it is when the fuel ran out, and also when the plain-text answer arrived on
the very last allowed iteration). -/
def openaiLoop (model : List LCMessage → ModelResponse) (tools : List LCTool) :
    Nat → List LCMessage → List ProviderEvent × Nat × Bool
  | 0, _ => ([], 0, true)
  | fuel + 1, msgs =>
      let response := model msgs
      if response.tool_calls = [] then
        ((wordTokens response.content).map ProviderEvent.chunk, 1, fuel = 0)
      else
        let msgs := msgs ++ [LCMessage.aiResponse response] ++
          toolCallMessages tools response.tool_calls
        let rest := openaiLoop model tools fuel msgs
        (toolCallEvents tools response.tool_calls ++ rest.1, rest.2.1 + 1, rest.2.2)

/-- `OpenAIProvider.agenerate_stream_with_tools` (openai_provider.py lines
198-350).  Returns the yielded events and the number of provider calls. -/
def agenerate_stream_with_tools (model : List LCMessage → ModelResponse)
    (tools : List LCTool) (messages : List ChatMessage)
    (max_iterations : Nat := 10) : List ProviderEvent × Nat :=
  let r := openaiLoop model tools max_iterations (convertMessages messages)
  (r.1 ++ (if r.2.2 then [ProviderEvent.chunk "[Tool calling max iterations reached]"] else []),
   r.2.1)

/-! ## OpenRouter variant (openrouter_provider.py)

Same loop shape, with three differences: a pre-flight `_supports_tool_calling`
check that falls back to plain streaming, `bind_tools` and `ainvoke` failures
that fall back to plain streaming mid-turn (a `return`, so the trailing
max-iterations notice is skipped), and tool-name-specific event types for the
two RAG tools. -/

/-- Python `needle in haystack` on strings. -/
def strContains (haystack needle : String) : Bool :=
  decide (List.IsInfix needle.toList haystack.toList)

/-- The tool-support allowlist of `_supports_tool_calling`
(openrouter_provider.py lines 456-462). -/
def toolSupportingModels : List String :=
  ["llama", "qwen", "mistral", "mixtral", "deepseek"]

/-- The explicit blocklist (openrouter_provider.py lines 471-473). -/
def blockedModels : List String := ["phi"]

/-- Whether the lowered model name matches the allowlist. -/
def inToolSupportAllowlist (model_name : String) : Bool :=
  toolSupportingModels.any (fun s => strContains (pyLower model_name) s)

/-- `OpenRouterProvider._supports_tool_calling` (openrouter_provider.py lines
434-482): allowlist match wins, then the blocklist forces `false`, and the
default is `true` ("will attempt tool calling"). -/
def supportsToolCalling (model_name : String) : Bool :=
  let model_lower := pyLower model_name
  if toolSupportingModels.any (fun s => strContains model_lower s) then true
  else if blockedModels.any (fun s => strContains model_lower s) then false
  else true

/-- One tool call in the OpenRouter loop (openrouter_provider.py lines
280-405): as `runToolCall`, but the result/error event type depends on the
tool name (`refine_prompt`, `semantic_search`, or generic). -/
def runToolCallOR (tools : List LCTool) (tc : ToolCallReq) :
    List ProviderEvent × LCMessage :=
  let callEvent := ProviderEvent.toolCall tc.name tc.args tc.id
  match tools.find? (fun t => t.name = tc.name) with
  | some tool =>
      match tool.func tc.args with
      | Except.ok tool_result =>
          let resultEvent :=
            if tc.name = "refine_prompt" then
              ProviderEvent.refinePromptResult tc.name tc.id tool_result
            else if tc.name = "semantic_search" then
              ProviderEvent.ragSearchResult tc.name tc.id tool_result
            else
              ProviderEvent.toolResult tc.name tc.id tool_result
          ([callEvent, resultEvent],
           LCMessage.tool (dumpToolOutput tool_result) tc.id false)
      | Except.error e =>
          let errorEvent :=
            if tc.name = "refine_prompt" then
              ProviderEvent.refinePromptError tc.name tc.id e
            else if tc.name = "semantic_search" then
              ProviderEvent.ragSearchError tc.name tc.id e
            else
              ProviderEvent.toolError tc.name tc.id e
          ([callEvent, errorEvent],
           LCMessage.tool ("Error executing tool: " ++ e) tc.id true)
  | none =>
      ([callEvent],
       LCMessage.tool ("Error: Tool '" ++ tc.name ++ "' not found") tc.id true)

/-- Events of a tool-call batch in the OpenRouter loop. -/
def toolCallEventsOR (tools : List LCTool) (tcs : List ToolCallReq) : List ProviderEvent :=
  (tcs.map (fun tc => (runToolCallOR tools tc).1)).flatten

/-- History delta of a tool-call batch in the OpenRouter loop. -/
def toolCallMessagesOR (tools : List LCTool) (tcs : List ToolCallReq) : List LCMessage :=
  tcs.map (fun tc => (runToolCallOR tools tc).2)

/-- The OpenRouter while-loop.  `model` may raise (`Except.error`), in which
case the loop falls back to plain streaming of the original `messages` and
returns (second component `false`: the trailing max-iterations check is
skipped). -/
def openrouterLoop (plainStream : List String)
    (model : List LCMessage → Except String ModelResponse) (tools : List LCTool) :
    Nat → List LCMessage → List ProviderEvent × Bool
  | 0, _ => ([], true)
  | fuel + 1, msgs =>
      match model msgs with
      | Except.error _ => (plainStream.map ProviderEvent.chunk, false)
      | Except.ok response =>
          if response.tool_calls = [] then
            ((wordTokens response.content).map ProviderEvent.chunk, fuel = 0)
          else
            let msgs := msgs ++ [LCMessage.aiResponse response] ++
              toolCallMessagesOR tools response.tool_calls
            let rest := openrouterLoop plainStream model tools fuel msgs
            (toolCallEventsOR tools response.tool_calls ++ rest.1, rest.2)

/-- `OpenRouterProvider.agenerate_stream_with_tools` (openrouter_provider.py
lines 199-432).  `plainStream` is the chunk sequence `agenerate_stream`
would yield for `messages`; `bindOk` is whether `bind_tools` succeeds. -/
def openrouter_stream_with_tools (model_name : String) (plainStream : List String)
    (bindOk : Bool) (model : List LCMessage → Except String ModelResponse)
    (tools : List LCTool) (messages : List ChatMessage)
    (max_iterations : Nat := 10) : List ProviderEvent :=
  if supportsToolCalling model_name = false then
    plainStream.map ProviderEvent.chunk
  else if bindOk = false then
    plainStream.map ProviderEvent.chunk
  else
    let r := openrouterLoop plainStream model tools max_iterations (convertMessages messages)
    r.1 ++ (if r.2 then [ProviderEvent.chunk "[Tool calling max iterations reached]"] else [])

/-! ## SessionOrchestrator (`ChatService`, chat_service.py)

A stored session message carries role, content and optional sources (the
`created_at` timestamp is not modelled; no claim mentions it).  A prompt
field is `Option String`, with Python truthiness: `None` and `""` are both
falsy.  `promptContent` merges `session.prompt_id` being set with the
`Prompt`-table lookup succeeding: `some c` means a prompt row with content
`c` was found. -/

/-- A message persisted in `session.messages`. -/
structure StoredMessage where
  role : String
  content : String
  sources : Option (List SourceRow)
  deriving Repr, DecidableEq

/-- The slice of `ChatSession` state that the streaming turn reads/writes. -/
structure SessionState where
  id : String
  status : String
  messages : List StoredMessage
  prompt_general : Option String
  task : Option String
  persona : Option String
  mission_objective : Option String
  promptContent : Option String
  deriving Repr, DecidableEq

/-- Python truthiness of an optional string field. -/
def pyTruthy : Option String → Bool
  | none => false
  | some s => s ≠ ""

/-- The `prompt_sections` list built by `_build_conversation_context`
(chat_service.py lines 263-285): general prompt, then the student-profile
block (task, persona, mission objective joined by blank lines), then the
specific prompt from the `Prompt` table. -/
def promptSections (s : SessionState) : List String :=
  (if pyTruthy s.prompt_general then
    ["# General Prompt\n" ++ s.prompt_general.getD ""] else []) ++
  (let student_profile : List String :=
    (if pyTruthy s.task then ["# Task\n" ++ s.task.getD ""] else []) ++
    (if pyTruthy s.persona then ["# Persona\n" ++ s.persona.getD ""] else []) ++
    (if pyTruthy s.mission_objective then
      ["# Mission Objective\n" ++ s.mission_objective.getD ""] else [])
   if student_profile ≠ [] then
    ["Student Learning Profile\n" ++ String.intercalate "\n\n" student_profile]
   else []) ++
  (match s.promptContent with
   | some c => ["# Specific Prompt\n" ++ c]
   | none => [])

/-- `ChatService._build_conversation_context` (chat_service.py lines
248-326).  The `include_rag_instruction` lookup in the body only logs (its
value is never used after the refactor noted at lines 300-301), so it does
not appear here. -/
def build_conversation_context (s : SessionState) : List ChatMessage :=
  let prompt_sections := promptSections s
  let system_content :=
    if prompt_sections ≠ [] then String.intercalate "\n\n" prompt_sections else ""
  (if system_content ≠ "" then [ChatMessage.mk "system" system_content] else []) ++
  s.messages.map (fun m => ChatMessage.mk m.role m.content)

/-- The `system_message` extracted from the context head (chat_service.py
lines 390-398): present iff the first context message has role `system`. -/
def sessionSystemMessage (s : SessionState) : Option StoredMessage :=
  match (build_conversation_context s).head? with
  | some m => if m.role = "system" then some ⟨"system", m.content, none⟩ else none
  | none => none

/-- A Python exception surfaced to the endpoint: `ValueError` or generic. -/
structure PyExc where
  isValueError : Bool
  msg : String
  deriving Repr, DecidableEq

/-- The outcome of consuming the provider stream inside the `try` block:
either it completes after yielding `events`, or it raises after `events`. -/
inductive StreamOutcome where
  | success (events : List ProviderEvent)
  | failure (events : List ProviderEvent) (err : String)
  deriving Repr, DecidableEq

/-- The outcome of the plain `generate_stream` branch (`use_rag = false`). -/
inductive PlainOutcome where
  | success (chunks : List String)
  | failure (chunks : List String) (err : String)
  deriving Repr, DecidableEq

/-- The event stream `ChatService.send_message_stream` yields. -/
inductive ChatEvent where
  | userMessage (m : StoredMessage)
  | ragSearchSearching (query : String)
  | ragSearchCompleted (query : String) (results_count : Nat)
  | chunk (content : String)
  | done (m : StoredMessage)
  deriving Repr, DecidableEq

/-- The per-event processing of the `use_rag` branch (chat_service.py lines
435-492), folded over the provider events: accumulates the yielded
`ChatEvent`s, `full_content` and `sources_list`.  `tool_call` events become
`rag_search`/`searching`; `tool_result` events with a result extend the
source list and become `rag_search`/`completed`; `tool_result` events with an
error only log; event types the dispatcher does not name (the
OpenRouter-specific ones) are ignored. -/
def processProviderEvent (acc : List ChatEvent × String × List SourceRow)
    (e : ProviderEvent) : List ChatEvent × String × List SourceRow :=
  match e with
  | ProviderEvent.toolCall _ tool_input _ =>
      let query := tool_input.query.getD ""
      (acc.1 ++ [ChatEvent.ragSearchSearching query], acc.2)
  | ProviderEvent.toolResult _ _ result =>
      (acc.1 ++ [ChatEvent.ragSearchCompleted (result.query.getD "") (result.count.getD 0)],
       acc.2.1, acc.2.2 ++ result.sources.getD [])
  | ProviderEvent.toolError _ _ _ => acc
  | ProviderEvent.chunk c => (acc.1 ++ [ChatEvent.chunk c], acc.2.1 ++ c, acc.2.2)
  | _ => acc

/-- Fold of `processProviderEvent` over the whole stream. -/
def processProviderEvents (events : List ProviderEvent) :
    List ChatEvent × String × List SourceRow :=
  events.foldl processProviderEvent ([], "", [])

/-- The duplicate-source removal of chat_service.py lines 508-516: key
`(document_id, page)`, first occurrence kept, order preserved. -/
def dedupeSources (sources : List SourceRow) : List SourceRow :=
  (sources.foldl
    (fun (acc : List SourceRow × List (String × Option Int)) source =>
      let key := (source.document_id, source.page)
      if key ∈ acc.2 then acc
      else (acc.1 ++ [source], acc.2 ++ [key]))
    ([], [])).1

/-- `ChatService.send_message_stream` (chat_service.py lines 349-547).
Returns the yielded events, the session state after the call (unchanged
unless the commit at line 538 was reached), and the exception raised, if
any.  `ragOutcome`/`plainOutcome` are the oracles for the provider stream
consumed in the corresponding branch. -/
def send_message_stream (s : SessionState) (message_content : String)
    (use_rag : Bool) (ragOutcome : StreamOutcome) (plainOutcome : PlainOutcome) :
    List ChatEvent × SessionState × Option PyExc :=
  if s.status ≠ "active" then
    ([], s, some ⟨true, "Session " ++ s.id ++ " is not active"⟩)
  else
    let system_message : Option StoredMessage := sessionSystemMessage s
    let user_message : StoredMessage := ⟨"user", message_content, none⟩
    let streamed : (List ChatEvent × String × List SourceRow) × Option String :=
      if use_rag then
        match ragOutcome with
        | StreamOutcome.success events => (processProviderEvents events, none)
        | StreamOutcome.failure events err => (processProviderEvents events, some err)
      else
        match plainOutcome with
        | PlainOutcome.success chunks =>
            ((chunks.map ChatEvent.chunk, String.join chunks, []), none)
        | PlainOutcome.failure chunks err =>
            ((chunks.map ChatEvent.chunk, String.join chunks, []), some err)
    match streamed with
    | (body, some err) =>
        (ChatEvent.userMessage user_message :: body.1, s, some ⟨false, err⟩)
    | (body, none) =>
        let full_content := body.2.1
        let sources_list := body.2.2
        let unique_sources :=
          if use_rag ∧ sources_list ≠ [] then dedupeSources sources_list else []
        let assistant_message : StoredMessage :=
          ⟨"assistant", full_content,
           if unique_sources ≠ [] then some unique_sources else none⟩
        let withSystem :=
          match system_message with
          | some sys => if s.messages.length = 0 then s.messages ++ [sys] else s.messages
          | none => s.messages
        let newMessages := withSystem ++ [user_message, assistant_message]
        (ChatEvent.userMessage user_message :: body.1 ++ [ChatEvent.done assistant_message],
         { s with messages := newMessages }, none)

/-- The SSE events the endpoint serializes (chat.py lines 370-390). -/
inductive SSEEvent where
  | userMessage (m : StoredMessage)
  | ragSearch (payload : ChatEvent)
  | chunk (content : String)
  | done (m : StoredMessage)
  | error (msg : String) (status : Nat)
  deriving Repr, DecidableEq

/-- The event-type dispatch of `generate_stream` (chat.py lines 370-383). -/
def toSSE : ChatEvent → SSEEvent
  | ChatEvent.userMessage m => SSEEvent.userMessage m
  | ChatEvent.ragSearchSearching q => SSEEvent.ragSearch (ChatEvent.ragSearchSearching q)
  | ChatEvent.ragSearchCompleted q n => SSEEvent.ragSearch (ChatEvent.ragSearchCompleted q n)
  | ChatEvent.chunk c => SSEEvent.chunk c
  | ChatEvent.done m => SSEEvent.done m

/-- `send_message.generate_stream` (chat.py lines 330-390): look the session
up (a miss raises `ValueError` inside the `try`), run the streamed turn with
`use_rag=True`, serialize each event, and turn an escaped exception into a
single terminal `error` event (`ValueError` as status 400, anything else
wrapped as status 500).  Returns the SSE events and the session state after
the request. -/
def generate_stream (sessionOpt : Option SessionState) (session_id : String)
    (message : String) (ragOutcome : StreamOutcome) (plainOutcome : PlainOutcome) :
    List SSEEvent × Option SessionState :=
  match sessionOpt with
  | none =>
      ([SSEEvent.error ("Session " ++ session_id ++ " not found") 400], none)
  | some session =>
      let run := send_message_stream session message true ragOutcome plainOutcome
      (run.1.map toSSE ++
        (match run.2.2 with
         | none => []
         | some e =>
             if e.isValueError then [SSEEvent.error e.msg 400]
             else [SSEEvent.error ("Failed to send message: " ++ e.msg) 500]),
       some run.2.1)

/-! ## Helper lemmas -/

theorem string_eq_empty_of_length (a : String) (h : a.length = 0) : a = "" := by
  cases a with
  | mk data =>
      cases data with
      | nil => rfl
      | cons c cs => simp [String.length] at h

theorem intercalate_go_ne_empty (sep : String) :
    ∀ (ys : List String) (a : String), a ≠ "" →
      String.intercalate.go a sep ys ≠ "" := by
  intro ys
  induction ys with
  | nil => intro a ha; simpa [String.intercalate.go] using ha
  | cons b bs ih =>
      intro a ha
      rw [String.intercalate.go]
      apply ih
      intro hcontra
      apply ha
      have hlen := congrArg String.length hcontra
      simp [String.length_append] at hlen
      exact string_eq_empty_of_length a (by omega)

theorem intercalate_cons_ne_empty (sep x : String) (xs : List String) (hx : x ≠ "") :
    String.intercalate sep (x :: xs) ≠ "" := by
  simpa [String.intercalate] using intercalate_go_ne_empty sep xs x hx

theorem filterMap_ite_eq_map_filter {α β : Type} (P : α → Prop) [DecidablePred P]
    (g : α → β) (l : List α) :
    (l.filterMap fun a => if P a then none else some (g a)) =
    (l.filter fun a => !(decide (P a))).map g := by
  induction l with
  | nil => simp
  | cons a l ih =>
      by_cases h : P a <;> simp [h, ih, List.filterMap_cons]

/-- `semantic_search` as sort-take-filter-map: the loop body is a filter on
the row (`similarity_threshold > 0 ∧ 1 - distance < similarity_threshold`)
followed by the construction of the result record. -/
theorem semantic_search_eq (corpus : List ChunkRow) (top_k : Nat) (t : ℚ) :
    semantic_search corpus top_k t =
      ((sqlTopK corpus top_k).filter fun row =>
          !(decide (t > 0 ∧ 1 - row.distance < t))).map
        (fun row =>
          { chunk_id := row.chunk_id, content := row.content,
            document_id := row.document_id, filename := row.filename,
            page := row.page, similarity_score := 1 - row.distance,
            chunk_index := row.chunk_index }) := by
  unfold semantic_search
  exact filterMap_ite_eq_map_filter
    (fun row => t > 0 ∧ 1 - row.distance < t) _ (sqlTopK corpus top_k)

theorem sqlTopK_pairwise (corpus : List ChunkRow) (top_k : Nat) :
    (sqlTopK corpus top_k).Pairwise distLE := by
  have hs : ((corpus.filter (·.processed)).insertionSort distLE).Pairwise distLE :=
    List.sorted_insertionSort distLE _
  exact hs.sublist (List.take_sublist _ _)

/-! ## C2: search bounds, threshold, ordering -/

/-- C2 (counterexample): as stated, the claim is false.  With the threshold
`t = 0` the filter is disabled (`similarity_threshold > 0` fails), so a chunk
at cosine distance `3/2` comes back with `similarity_score = -1/2 < t`. -/
theorem C2_counterexample :
    ((semantic_search [⟨"c1", "t1", "d1", "f.pdf", some 1, 3/2, 0, true⟩] 1 0).map
        (fun r => r.similarity_score) = [-(1/2)]) ∧
    ¬ ((0 : ℚ) ≤ -(1/2)) := by
  constructor
  · norm_num [semantic_search, sqlTopK, List.insertionSort, List.orderedInsert,
      List.filterMap_cons]
  · norm_num

/-- C2 (amended): `semantic_search(query, top_k=k, similarity_threshold=t)`
returns at most `k` results sorted in descending `similarity_score` order,
and, provided `t > 0`, every returned result has `similarity_score ≥ t`
(for `t ≤ 0` the threshold filter is disabled entirely). -/
theorem C2_search_contract (corpus : List ChunkRow) (k : Nat) (t : ℚ) :
    (semantic_search corpus k t).length ≤ k ∧
    (semantic_search corpus k t).Pairwise
      (fun a b => b.similarity_score ≤ a.similarity_score) ∧
    (0 < t → ∀ r ∈ semantic_search corpus k t, t ≤ r.similarity_score) := by
  refine ⟨?_, ?_, ?_⟩
  · calc (semantic_search corpus k t).length
        ≤ (sqlTopK corpus k).length := by
          unfold semantic_search
          exact List.length_filterMap_le _ _
      _ ≤ k := by
          unfold sqlTopK
          exact List.length_take_le _ _
  · rw [semantic_search_eq]
    rw [List.pairwise_map]
    have hp : ((sqlTopK corpus k).filter
        fun row => !(decide (t > 0 ∧ 1 - row.distance < t))).Pairwise distLE :=
      (sqlTopK_pairwise corpus k).sublist (List.filter_sublist _)
    exact hp.imp fun h => by
      simpa using sub_le_sub_left h 1
  · intro ht r hr
    unfold semantic_search at hr
    obtain ⟨row, _, heq⟩ := List.mem_filterMap.mp hr
    by_cases hc : t > 0 ∧ 1 - row.distance < t
    · simp [hc] at heq
    · simp [hc] at heq
      push_neg at hc
      have := hc ht
      rw [← heq]
      exact this

/-- Witness for `C2_search_contract` at a concrete corpus and `t = 7/10`. -/
theorem C2_search_contract_witness :
    ∀ r ∈ semantic_search [⟨"c2", "t2", "d1", "f.pdf", some 2, 1/10, 1, true⟩] 5 (7/10),
      (7/10 : ℚ) ≤ r.similarity_score :=
  (C2_search_contract [⟨"c2", "t2", "d1", "f.pdf", some 2, 1/10, 1, true⟩] 5 (7/10)).2.2
    (by norm_num)

/-! ## C8: top_k clamping -/

/-- C8 (counterexample): `RAGService.semantic_search` does not clamp `top_k`.
A call with `top_k = 0` executes `LIMIT 0` and returns nothing, while the
claimed clamp to `[1, max_top_k]` would make it behave like `top_k = 1`,
which on this one-row corpus returns one result. -/
theorem C8_counterexample :
    semantic_search [⟨"c2", "t2", "d1", "f.pdf", some 2, 1/10, 1, true⟩] 0 (7/10) = [] ∧
    semantic_search [⟨"c2", "t2", "d1", "f.pdf", some 2, 1/10, 1, true⟩] 1 (7/10) ≠ [] := by
  constructor
  · norm_num [semantic_search, sqlTopK]
  · norm_num [semantic_search, sqlTopK, List.insertionSort, List.orderedInsert,
      List.filterMap_cons]

/-- C8 (amended): the `[1, max_top_k]` clamp exists only in the
`semantic_search` tool executor (`top_k = max(1, min(top_k, max_top_k))`,
tools.py line 92), where it does map every input into `[1, max_top_k]`
whenever `max_top_k ≥ 1`; `RAGService.semantic_search` itself passes `top_k`
through to the query limit unclamped, so `top_k = 0` yields no results. -/
theorem C8_clamp_location (corpus : List ChunkRow) (t : ℚ) (k m : Int)
    (hm : 1 ≤ m) :
    semantic_search corpus 0 t = [] ∧
    1 ≤ clampTopK k m ∧ clampTopK k m ≤ m := by
  refine ⟨?_, le_max_left _ _, max_le hm (min_le_right _ _)⟩
  unfold semantic_search sqlTopK
  simp

/-- Witness for `C8_clamp_location` with `max_top_k = 10`, `top_k = 50`. -/
theorem C8_clamp_location_witness :
    semantic_search [⟨"c2", "t2", "d1", "f.pdf", some 2, 1/10, 1, true⟩] 0 (7/10) = [] ∧
    1 ≤ clampTopK 50 10 ∧ clampTopK 50 10 ≤ 10 :=
  C8_clamp_location [⟨"c2", "t2", "d1", "f.pdf", some 2, 1/10, 1, true⟩] (7/10) 50 10
    (by norm_num)

/-! ## C10: the tool executor always fails on `get_config` -/

/-- C10: for every non-blank query, the `semantic_search` tool executor
returns the failure shape `{results: [], sources: [], count: 0, error}` and
performs no vector search: `class RAGService` defines no `get_config`
method, so `self.rag_service.get_config()` raises `AttributeError`, absorbed
by the catch-all branch. -/
theorem C10_tool_always_fails (corpus : List ChunkRow) (query : String)
    (top_k : Option Int) (h : pyStrip query ≠ "") :
    ragServiceMethodNames.contains "get_config" = false ∧
    semanticSearchTool corpus query top_k =
      ({ query := query, results := [], sources := [], count := 0,
         error := some "'RAGService' object has no attribute 'get_config'" }, []) := by
  refine ⟨by decide, ?_⟩
  have hcfg : ragServiceGetConfig =
      Except.error "'RAGService' object has no attribute 'get_config'" := rfl
  unfold semanticSearchTool semantic_search_impl
  rw [hcfg]
  simp [h]

/-- Witness for `C10_tool_always_fails` on the query `"what is NAT"`. -/
theorem C10_tool_always_fails_witness :
    semanticSearchTool [] "what is NAT" none =
      ({ query := "what is NAT", results := [], sources := [], count := 0,
         error := some "'RAGService' object has no attribute 'get_config'" }, []) :=
  (C10_tool_always_fails [] "what is NAT" none (by decide)).2

/-! ## C6: refinement failure is non-fatal -/

/-- C6: whenever the auxiliary completion fails, `refine_prompt_impl` does
not raise: it returns a dict whose `original` and `refined` fields are both
the input prompt and whose `success` field is `false` (this holds for every
prompt, blank ones included — those fail validation before the completion
and land in the same `except` branch). -/
theorem C6_refine_failure_falls_back (original_prompt e : String) :
    (refine_prompt_impl original_prompt (Except.error e)).original = original_prompt ∧
    (refine_prompt_impl original_prompt (Except.error e)).refined = original_prompt ∧
    (refine_prompt_impl original_prompt (Except.error e)).success = false := by
  unfold refine_prompt_impl
  by_cases h : pyStrip original_prompt = "" <;> simp [h]

/-! ## C4: iteration cap -/

theorem openaiLoop_calls_le (model : List LCMessage → ModelResponse)
    (tools : List LCTool) :
    ∀ (fuel : Nat) (msgs : List LCMessage),
      (openaiLoop model tools fuel msgs).2.1 ≤ fuel := by
  intro fuel
  induction fuel with
  | zero => intro msgs; simp [openaiLoop]
  | succ n ih =>
      intro msgs
      rw [openaiLoop]
      by_cases h : (model msgs).tool_calls = [] <;> simp [h]
      exact ih _

theorem openaiLoop_always_tools (model : List LCMessage → ModelResponse)
    (tools : List LCTool) (h : ∀ msgs, (model msgs).tool_calls ≠ []) :
    ∀ (fuel : Nat) (msgs : List LCMessage),
      (openaiLoop model tools fuel msgs).2.1 = fuel ∧
      (openaiLoop model tools fuel msgs).2.2 = true := by
  intro fuel
  induction fuel with
  | zero => intro msgs; simp [openaiLoop]
  | succ n ih =>
      intro msgs
      rw [openaiLoop]
      simp [h msgs]
      exact ih _

/-- C4: the agentic loop issues at most `max_iterations` provider calls, and
a model whose every response contains tool calls drives it to exactly
`max_iterations` calls, after which the final yielded event is the synthetic
`[Tool calling max iterations reached]` text chunk. -/
theorem C4_iteration_cap (model : List LCMessage → ModelResponse)
    (tools : List LCTool) (messages : List ChatMessage) (max_iterations : Nat) :
    (agenerate_stream_with_tools model tools messages max_iterations).2 ≤ max_iterations ∧
    ((∀ msgs, (model msgs).tool_calls ≠ []) →
      (agenerate_stream_with_tools model tools messages max_iterations).2 = max_iterations ∧
      (agenerate_stream_with_tools model tools messages max_iterations).1.getLast? =
        some (ProviderEvent.chunk "[Tool calling max iterations reached]")) := by
  constructor
  · unfold agenerate_stream_with_tools
    exact openaiLoop_calls_le model tools max_iterations _
  · intro h
    obtain ⟨hc, he⟩ :=
      openaiLoop_always_tools model tools h max_iterations (convertMessages messages)
    unfold agenerate_stream_with_tools
    simp [hc, he, List.getLast?_concat]

/-- Witness for `C4_iteration_cap`: a model that always requests one tool
call makes exactly 3 provider calls under `max_iterations = 3` and the last
event is the synthetic notice. -/
theorem C4_iteration_cap_witness :
    (agenerate_stream_with_tools
        (fun _ => ⟨"", [⟨"semantic_search", ⟨some "q", ""⟩, "id1"⟩]⟩) [] [] 3).2 = 3 ∧
    (agenerate_stream_with_tools
        (fun _ => ⟨"", [⟨"semantic_search", ⟨some "q", ""⟩, "id1"⟩]⟩) [] [] 3).1.getLast? =
      some (ProviderEvent.chunk "[Tool calling max iterations reached]") :=
  (C4_iteration_cap (fun _ => ⟨"", [⟨"semantic_search", ⟨some "q", ""⟩, "id1"⟩]⟩) [] [] 3).2
    (fun _ => by simp)

/-! ## C7: unregistered tool names do not abort the turn -/

/-- C7: when the model response references an unregistered tool name, the
loop does not abort: it recurses on a history `next` that extends the running
history with the model response and one tool message per call, and for the
unregistered name that tool message is the synthesized error
`Error: Tool '<name>' not found`, visible to the next provider request. -/
theorem C7_unregistered_tool (model : List LCMessage → ModelResponse)
    (tools : List LCTool) (fuel : Nat) (msgs : List LCMessage)
    (resp : ModelResponse) (tc : ToolCallReq)
    (hresp : model msgs = resp) (hne : resp.tool_calls ≠ [])
    (htc : tc ∈ resp.tool_calls)
    (hfind : tools.find? (fun t => t.name = tc.name) = none) :
    (openaiLoop model tools (fuel + 1) msgs).1 =
      toolCallEvents tools resp.tool_calls ++
      (openaiLoop model tools fuel
        (msgs ++ [LCMessage.aiResponse resp] ++ toolCallMessages tools resp.tool_calls)).1 ∧
    LCMessage.tool ("Error: Tool '" ++ tc.name ++ "' not found") tc.id true ∈
      msgs ++ [LCMessage.aiResponse resp] ++ toolCallMessages tools resp.tool_calls := by
  constructor
  · rw [openaiLoop, hresp]
    simp [hne]
  · apply List.mem_append_right
    unfold toolCallMessages
    apply List.mem_map_of_mem
      (f := fun tc => (runToolCall tools tc).2) at htc
    rwa [runToolCall, hfind] at htc

/-- Witness for `C7_unregistered_tool`: a model calling the unregistered
tool `"ghost"` against an empty registry. -/
theorem C7_unregistered_tool_witness :
    (openaiLoop (fun _ => ⟨"", [⟨"ghost", ⟨none, ""⟩, "id9"⟩]⟩) [] 1 []).1 =
      toolCallEvents [] [⟨"ghost", ⟨none, ""⟩, "id9"⟩] ++
      (openaiLoop (fun _ => ⟨"", [⟨"ghost", ⟨none, ""⟩, "id9"⟩]⟩) [] 0
        ([] ++ [LCMessage.aiResponse ⟨"", [⟨"ghost", ⟨none, ""⟩, "id9"⟩]⟩] ++
          toolCallMessages [] [⟨"ghost", ⟨none, ""⟩, "id9"⟩])).1 ∧
    LCMessage.tool ("Error: Tool '" ++ "ghost" ++ "' not found") "id9" true ∈
      [] ++ [LCMessage.aiResponse ⟨"", [⟨"ghost", ⟨none, ""⟩, "id9"⟩]⟩] ++
        toolCallMessages [] [⟨"ghost", ⟨none, ""⟩, "id9"⟩] :=
  C7_unregistered_tool (fun _ => ⟨"", [⟨"ghost", ⟨none, ""⟩, "id9"⟩]⟩) [] 0 []
    ⟨"", [⟨"ghost", ⟨none, ""⟩, "id9"⟩]⟩ ⟨"ghost", ⟨none, ""⟩, "id9"⟩
    rfl (by simp) (by simp) rfl

/-! ## Shapes of `send_message_stream` runs -/

def isDoneEvent : ChatEvent → Bool
  | ChatEvent.done _ => true
  | _ => false

def isSSEError : SSEEvent → Bool
  | SSEEvent.error _ _ => true
  | _ => false

def isToolCallEvent : ProviderEvent → Bool
  | ProviderEvent.toolCall _ _ _ => true
  | _ => false

/-- The assistant message a successful RAG-mode turn persists: accumulated
text plus deduplicated sources (or `none` when no sources were gathered). -/
def assistantOf (events : List ProviderEvent) : StoredMessage :=
  let body := processProviderEvents events
  let unique_sources := if body.2.2 ≠ [] then dedupeSources body.2.2 else []
  ⟨"assistant", body.2.1, if unique_sources ≠ [] then some unique_sources else none⟩

/-- The message list just before the user/assistant pair is appended: the
prior log plus the system message when the log was empty. -/
def persistedBase (s : SessionState) : List StoredMessage :=
  match sessionSystemMessage s with
  | some sys => if s.messages.length = 0 then s.messages ++ [sys] else s.messages
  | none => s.messages

theorem send_message_stream_success_eq (s : SessionState) (msg : String)
    (events : List ProviderEvent) (plainO : PlainOutcome) (h : s.status = "active") :
    send_message_stream s msg true (StreamOutcome.success events) plainO =
      (ChatEvent.userMessage ⟨"user", msg, none⟩ ::
        (processProviderEvents events).1 ++ [ChatEvent.done (assistantOf events)],
       { s with messages := persistedBase s ++ [⟨"user", msg, none⟩, assistantOf events] },
       none) := by
  unfold send_message_stream assistantOf persistedBase
  simp [h]

theorem send_message_stream_failure_eq (s : SessionState) (msg : String)
    (events : List ProviderEvent) (err : String) (plainO : PlainOutcome)
    (h : s.status = "active") :
    send_message_stream s msg true (StreamOutcome.failure events err) plainO =
      (ChatEvent.userMessage ⟨"user", msg, none⟩ :: (processProviderEvents events).1,
       s, some ⟨false, err⟩) := by
  unfold send_message_stream
  simp [h]

theorem send_message_stream_inactive_eq (s : SessionState) (msg : String)
    (use_rag : Bool) (ragO : StreamOutcome) (plainO : PlainOutcome)
    (h : ¬ s.status = "active") :
    send_message_stream s msg use_rag ragO plainO =
      ([], s, some ⟨true, "Session " ++ s.id ++ " is not active"⟩) := by
  unfold send_message_stream
  simp [h]

theorem countP_done_processProviderEvent (acc : List ChatEvent × String × List SourceRow)
    (e : ProviderEvent) :
    ((processProviderEvent acc e).1).countP isDoneEvent = acc.1.countP isDoneEvent := by
  cases e <;>
    simp [processProviderEvent, isDoneEvent, List.countP_append, List.countP_cons]

theorem countP_done_processProviderEvents (events : List ProviderEvent) :
    ∀ acc, ((events.foldl processProviderEvent acc).1).countP isDoneEvent =
      acc.1.countP isDoneEvent := by
  induction events with
  | nil => intro acc; rfl
  | cons e es ih =>
      intro acc
      rw [List.foldl_cons, ih, countP_done_processProviderEvent]

theorem persistedBase_eq (s : SessionState) :
    persistedBase s = s.messages ++
      (if (sessionSystemMessage s).isSome ∧ s.messages = []
       then [(sessionSystemMessage s).getD ⟨"", "", none⟩] else []) := by
  unfold persistedBase
  cases hm : sessionSystemMessage s with
  | none => simp
  | some sys =>
      by_cases he : s.messages = []
      · simp [he]
      · simp [he, List.length_eq_zero]

/-! ## C1: exactly-once persistence and a single terminal done event -/

/-- C1: a successful streamed turn on an active session yields exactly one
`done` event, placed last, and appends exactly one user and one assistant
message to the session log — preceded by the system message only when the
session had no prior messages — regardless of how many tool events the
provider stream contained. -/
theorem C1_exactly_once (s : SessionState) (msg : String)
    (events : List ProviderEvent) (plainO : PlainOutcome) (h : s.status = "active") :
    ((send_message_stream s msg true (StreamOutcome.success events) plainO).1.countP
        isDoneEvent = 1) ∧
    (∃ a, (send_message_stream s msg true (StreamOutcome.success events) plainO).1.getLast? =
        some (ChatEvent.done a) ∧ a.role = "assistant" ∧
      (send_message_stream s msg true (StreamOutcome.success events) plainO).2.1.messages =
        s.messages ++
        (if (sessionSystemMessage s).isSome ∧ s.messages = []
         then [(sessionSystemMessage s).getD ⟨"", "", none⟩] else []) ++
        [⟨"user", msg, none⟩, a]) ∧
    (send_message_stream s msg true (StreamOutcome.success events) plainO).2.2 = none := by
  rw [send_message_stream_success_eq s msg events plainO h]
  refine ⟨?_, ⟨assistantOf events, ?_, rfl, ?_⟩, rfl⟩
  · have hbody : ((processProviderEvents events).1).countP isDoneEvent = 0 :=
      countP_done_processProviderEvents events ([], "", [])
    simp [List.countP_cons, List.countP_append, isDoneEvent, hbody]
  · show (ChatEvent.userMessage ⟨"user", msg, none⟩ ::
        ((processProviderEvents events).1 ++ [ChatEvent.done (assistantOf events)])).getLast? =
      some (ChatEvent.done (assistantOf events))
    rw [← List.cons_append]
    exact List.getLast?_concat _
  · rw [persistedBase_eq, List.append_assoc]

/-- Witness for `C1_exactly_once` on a fresh active session whose provider
stream is a single text chunk. -/
theorem C1_exactly_once_witness :
    ((send_message_stream ⟨"s1", "active", [], none, none, none, none, none⟩ "halo" true
        (StreamOutcome.success [ProviderEvent.chunk "ok"]) (PlainOutcome.success [])).1.countP
        isDoneEvent = 1) ∧
    (∃ a, (send_message_stream ⟨"s1", "active", [], none, none, none, none, none⟩ "halo" true
        (StreamOutcome.success [ProviderEvent.chunk "ok"]) (PlainOutcome.success [])).1.getLast? =
        some (ChatEvent.done a) ∧ a.role = "assistant" ∧
      (send_message_stream ⟨"s1", "active", [], none, none, none, none, none⟩ "halo" true
        (StreamOutcome.success [ProviderEvent.chunk "ok"]) (PlainOutcome.success [])).2.1.messages =
        ([] : List StoredMessage) ++
        (if (sessionSystemMessage ⟨"s1", "active", [], none, none, none, none, none⟩).isSome ∧
            ([] : List StoredMessage) = []
         then [(sessionSystemMessage ⟨"s1", "active", [], none, none, none, none, none⟩).getD
            ⟨"", "", none⟩] else []) ++
        [⟨"user", "halo", none⟩, a]) ∧
    (send_message_stream ⟨"s1", "active", [], none, none, none, none, none⟩ "halo" true
        (StreamOutcome.success [ProviderEvent.chunk "ok"]) (PlainOutcome.success [])).2.2 = none :=
  C1_exactly_once ⟨"s1", "active", [], none, none, none, none, none⟩ "halo"
    [ProviderEvent.chunk "ok"] (PlainOutcome.success []) rfl

/-! ## C3: the caller always receives a terminal done or error event -/

theorem countP_sseError_map_toSSE (l : List ChatEvent) :
    (l.map toSSE).countP isSSEError = 0 := by
  induction l with
  | nil => rfl
  | cons e es ih => cases e <;> simp [toSSE, isSSEError, List.countP_cons, ih]

/-- C3: every turn ends with a terminal event, never silence: either the
turn succeeds and the SSE stream ends with a `done` event (and no `error`
event at all), or an exception was raised before persistence, the stream
ends with exactly one `error` event, and the session state — in particular
its message log — is exactly what it was before the call. -/
theorem C3_done_or_error (sessionOpt : Option SessionState) (sid msg : String)
    (ragO : StreamOutcome) (plainO : PlainOutcome) :
    ((∃ m, (generate_stream sessionOpt sid msg ragO plainO).1.getLast? =
        some (SSEEvent.done m)) ∧
      (generate_stream sessionOpt sid msg ragO plainO).1.countP isSSEError = 0 ∧
      (generate_stream sessionOpt sid msg ragO plainO).1 ≠ []) ∨
    ((∃ e st, (generate_stream sessionOpt sid msg ragO plainO).1.getLast? =
        some (SSEEvent.error e st)) ∧
      (generate_stream sessionOpt sid msg ragO plainO).1.countP isSSEError = 1 ∧
      (generate_stream sessionOpt sid msg ragO plainO).2 = sessionOpt) := by
  cases sessionOpt with
  | none =>
      right
      refine ⟨⟨"Session " ++ sid ++ " not found", 400, ?_⟩, ?_, ?_⟩ <;>
        simp [generate_stream, isSSEError]
  | some s =>
      by_cases hs : s.status = "active"
      · cases ragO with
        | success events =>
            left
            have heq := send_message_stream_success_eq s msg events plainO hs
            simp only [generate_stream, heq]
            refine ⟨⟨assistantOf events, ?_⟩, ?_, ?_⟩
            · rw [List.map_append, List.append_nil]
              exact List.getLast?_concat _
            · simpa using countP_sseError_map_toSSE
                (ChatEvent.userMessage ⟨"user", msg, none⟩ ::
                  ((processProviderEvents events).1 ++ [ChatEvent.done (assistantOf events)]))
            · simp
        | failure events err =>
            right
            have heq := send_message_stream_failure_eq s msg events err plainO hs
            simp only [generate_stream, heq]
            refine ⟨⟨"Failed to send message: " ++ err, 500, ?_⟩, ?_, ?_⟩
            · exact List.getLast?_concat _
            · simp [List.countP_cons, List.countP_append, isSSEError, toSSE]
              intro a ha
              cases a <;> rfl
            · simp
      · right
        have heq := send_message_stream_inactive_eq s msg true ragO plainO hs
        simp only [generate_stream, heq]
        refine ⟨⟨"Session " ++ s.id ++ " is not active", 400, ?_⟩, ?_, ?_⟩ <;>
          simp [isSSEError]

/-! ## C9: system-prompt layering and history order -/

theorem string_append_ne_empty_left (p q : String) (hp : p ≠ "") : p ++ q ≠ "" := by
  intro h
  apply hp
  have hlen := congrArg String.length h
  simp [String.length_append] at hlen
  exact string_eq_empty_of_length p (by omega)

theorem promptSections_mem_ne_empty (s : SessionState) :
    ∀ x ∈ promptSections s, x ≠ "" := by
  intro x hx
  unfold promptSections at hx
  rcases List.mem_append.mp hx with h | h
  · rcases List.mem_append.mp h with h1 | h2
    · by_cases hg : pyTruthy s.prompt_general
      · simp [hg] at h1
        rw [h1]
        exact string_append_ne_empty_left _ _ (by decide)
      · simp [hg] at h1
    · by_cases hp : ((if pyTruthy s.task then ["# Task\n" ++ s.task.getD ""] else []) ++
          (if pyTruthy s.persona then ["# Persona\n" ++ s.persona.getD ""] else []) ++
          (if pyTruthy s.mission_objective then
            ["# Mission Objective\n" ++ s.mission_objective.getD ""] else [])) = []
      · simp [hp] at h2
      · simp only [hp, if_neg, ne_eq, not_false_iff, if_true] at h2
        simp at h2
        rw [h2]
        exact string_append_ne_empty_left _ _ (by decide)
  · cases hpc : s.promptContent with
    | none => simp [hpc] at h
    | some c =>
        simp [hpc] at h
        rw [h]
        exact string_append_ne_empty_left _ _ (by decide)

theorem promptSections_empty_iff (s : SessionState) :
    promptSections s = [] ↔
      (pyTruthy s.prompt_general || pyTruthy s.task || pyTruthy s.persona ||
       pyTruthy s.mission_objective || s.promptContent.isSome) = false := by
  unfold promptSections
  cases hG : pyTruthy s.prompt_general <;>
  cases hT : pyTruthy s.task <;>
  cases hP : pyTruthy s.persona <;>
  cases hM : pyTruthy s.mission_objective <;>
  cases hPC : s.promptContent <;>
  simp

/-- C9: the context opens with a single leading system message exactly when
some prompt section is present — i.e. when the general prompt, one of the
learner-profile fields (task, persona, mission objective), or the
session-specific prompt is non-empty.  The sections are joined by blank-line
separators in that fixed order, and the conversation history follows
role-for-role in stored order. -/
theorem C9_context_layout (s : SessionState) :
    (promptSections s ≠ [] ↔
      (pyTruthy s.prompt_general || pyTruthy s.task || pyTruthy s.persona ||
       pyTruthy s.mission_objective || s.promptContent.isSome) = true) ∧
    (promptSections s ≠ [] →
      build_conversation_context s =
        ChatMessage.mk "system" (String.intercalate "\n\n" (promptSections s)) ::
          s.messages.map (fun m => ChatMessage.mk m.role m.content)) ∧
    (promptSections s = [] →
      build_conversation_context s =
        s.messages.map (fun m => ChatMessage.mk m.role m.content)) := by
  refine ⟨?_, ?_, ?_⟩
  · rw [not_iff_comm, promptSections_empty_iff]
    cases pyTruthy s.prompt_general || pyTruthy s.task || pyTruthy s.persona ||
      pyTruthy s.mission_objective || s.promptContent.isSome <;> simp
  · intro hne
    obtain ⟨x, xs, hxs⟩ := List.exists_cons_of_ne_nil hne
    have hx : x ≠ "" := promptSections_mem_ne_empty s x (by rw [hxs]; exact List.mem_cons_self x xs)
    have hcontent : String.intercalate "\n\n" (promptSections s) ≠ "" := by
      rw [hxs]; exact intercalate_cons_ne_empty _ _ _ hx
    unfold build_conversation_context
    simp [hne, hcontent]
  · intro hempty
    unfold build_conversation_context
    simp [hempty]

/-- Witness for `C9_context_layout`: a session with only a general prompt
set gets exactly one leading system message before its history. -/
theorem C9_context_layout_witness :
    build_conversation_context ⟨"s9", "active", [], some "Be kind", none, none, none, none⟩ =
      ChatMessage.mk "system"
        (String.intercalate "\n\n"
          (promptSections ⟨"s9", "active", [], some "Be kind", none, none, none, none⟩)) ::
        (([] : List StoredMessage).map (fun m => ChatMessage.mk m.role m.content)) :=
  (C9_context_layout ⟨"s9", "active", [], some "Be kind", none, none, none, none⟩).2.1
    (by decide)

/-! ## C5: OpenRouter degrade path -/

/-- C5 (counterexample): as stated, the claim is false.  The model name
`"google/gemma-7b"` is not in the tool-support allowlist, yet
`_supports_tool_calling` defaults to `True` for it (only the `phi` blocklist
forces a degrade), so streaming-with-tools still attempts tool calling and
can emit tool-call events instead of degrading to plain streaming. -/
theorem C5_counterexample :
    inToolSupportAllowlist "google/gemma-7b" = false ∧
    (openrouter_stream_with_tools "google/gemma-7b" ["hi"] true
        (fun _ => Except.ok ⟨"", [⟨"semantic_search", ⟨some "q", ""⟩, "s1"⟩]⟩)
        [] [] 1).countP isToolCallEvent ≠ 0 := by
  constructor
  · decide
  · decide

/-- C5 (amended): whenever `_supports_tool_calling` returns `False` — the
model name matches the blocklist (e.g. contains `"phi"`) and none of the
allowlist substrings — streaming-with-tools silently degrades to plain
streaming: the stream equals the plain chunk stream, contains zero tool-call
events, and an active session's turn built on it still completes with a
terminal `done` event.  (For names merely absent from the allowlist the
provider attempts tool calling instead.) -/
theorem C5_degrade (model_name : String) (plainStream : List String) (bindOk : Bool)
    (model : List LCMessage → Except String ModelResponse) (tools : List LCTool)
    (messages : List ChatMessage) (max_iterations : Nat)
    (h : supportsToolCalling model_name = false) :
    openrouter_stream_with_tools model_name plainStream bindOk model tools messages
        max_iterations = plainStream.map ProviderEvent.chunk ∧
    (openrouter_stream_with_tools model_name plainStream bindOk model tools messages
        max_iterations).countP isToolCallEvent = 0 ∧
    (∀ (s : SessionState) (msg : String) (plainO : PlainOutcome), s.status = "active" →
      ∃ a, (send_message_stream s msg true
          (StreamOutcome.success (openrouter_stream_with_tools model_name plainStream
            bindOk model tools messages max_iterations)) plainO).1.getLast? =
        some (ChatEvent.done a)) := by
  have hdeg : openrouter_stream_with_tools model_name plainStream bindOk model tools
      messages max_iterations = plainStream.map ProviderEvent.chunk := by
    unfold openrouter_stream_with_tools
    simp [h]
  refine ⟨hdeg, ?_, ?_⟩
  · rw [hdeg]
    induction plainStream with
    | nil => rfl
    | cons c cs ih => simp [List.countP_cons, isToolCallEvent, ih]
  · intro s msg plainO hs
    refine ⟨assistantOf (openrouter_stream_with_tools model_name plainStream bindOk model
      tools messages max_iterations), ?_⟩
    rw [send_message_stream_success_eq s msg _ plainO hs]
    show (ChatEvent.userMessage ⟨"user", msg, none⟩ ::
        ((processProviderEvents _).1 ++ [ChatEvent.done (assistantOf _)])).getLast? = _
    rw [← List.cons_append]
    exact List.getLast?_concat _

/-- Witness for `C5_degrade` on the blocked model `"microsoft/phi-3-mini"`. -/
theorem C5_degrade_witness :
    openrouter_stream_with_tools "microsoft/phi-3-mini" ["halo"] true
        (fun _ => Except.ok ⟨"", []⟩) [] [] 10 = (["halo"].map ProviderEvent.chunk) ∧
    (∃ a, (send_message_stream ⟨"s5", "active", [], none, none, none, none, none⟩ "hai" true
        (StreamOutcome.success (openrouter_stream_with_tools "microsoft/phi-3-mini" ["halo"]
          true (fun _ => Except.ok ⟨"", []⟩) [] [] 10))
        (PlainOutcome.success [])).1.getLast? = some (ChatEvent.done a)) := by
  have h := C5_degrade "microsoft/phi-3-mini" ["halo"] true
    (fun _ => Except.ok ⟨"", []⟩) [] [] 10 (by decide)
  exact ⟨h.1, h.2.2 ⟨"s5", "active", [], none, none, none, none, none⟩ "hai"
    (PlainOutcome.success []) rfl⟩

end SystemLLM
